import Mathlib

/-!
Shallow embedding of the multi-currency ledger core of the fdygt/Go shop
repository: `api/service/balance_service.py`, `api/service/conversion_service.py`,
`api/service/database_service.py` and the pydantic models in
`api/models/balance.py` and `api/models/conversion.py`.

Conventions:
* SQLite tables are lists of row structures inside `DBState`; every
  `execute_query` with `fetch=False` commits immediately (the source's
  `execute_query` calls `conn.commit()` per statement, there is no
  surrounding transaction object).
* Python exceptions are the `PyExc` type; a function that can raise returns
  `Except PyExc _`.
* pydantic model construction is a `construct`/`validate` function returning
  `Except PyExc _` (a failed validator raises `ValidationError`).
* timestamps are abstract `Nat` ticks.
-/

deriving instance DecidableEq for Except

namespace Go

/-- CurrencyType enum, `api/models/balance.py` lines 7-11. -/
inductive CurrencyType
  | wl
  | dl
  | bgl
  | idr
  deriving DecidableEq

/-- String value of each enum member, as stored in SQLite. -/
def CurrencyType.value : CurrencyType → String
  | .wl => "wl"
  | .dl => "dl"
  | .bgl => "bgl"
  | .idr => "idr"

/-- TransactionType enum, `api/models/balance.py` lines 13-20. -/
inductive TransactionType
  | add
  | subtract
  | convert
  | donation
  | purchase
  | refund
  | adjustment
  deriving DecidableEq

/-- TransactionStatus enum, `api/models/balance.py` lines 22-27. -/
inductive TransactionStatus
  | pending
  | success
  | failed
  | reversed
  | cancelled
  deriving DecidableEq

/-- Python exception values that the embedded code can raise. -/
inductive PyExc
  | attributeError (name : String)
  | typeError (msg : String)
  | valueError (msg : String)
  | validationError (msg : String)
  deriving DecidableEq

/-- Row of the `users` table as read by `balance_service.py` (columns
`id, user_type, growid, balance_wl, balance_dl, balance_bgl, balance_idr,
updated_at, updated_by`).  SQLite integer columns are unconstrained `Int`:
the schema carries no CHECK constraint, so negative values are storable. -/
structure UserRow where
  id : String
  user_type : String
  growid : Option String
  balance_wl : Int
  balance_dl : Int
  balance_bgl : Int
  balance_idr : Int
  updated_at : Nat
  updated_by : String
  deriving DecidableEq

/-- The column `balance_{currency.value}` of a row, as read by the dynamic
SQL template in `update_balance` (lines 88-96). -/
def UserRow.getBalance (u : UserRow) : CurrencyType → Int
  | .wl => u.balance_wl
  | .dl => u.balance_dl
  | .bgl => u.balance_bgl
  | .idr => u.balance_idr

/-- Effect of `SET balance_{currency.value} = balance_{currency.value} + ?`
on one row. -/
def UserRow.addBalance (u : UserRow) (c : CurrencyType) (delta : Int) : UserRow :=
  match c with
  | .wl => { u with balance_wl := u.balance_wl + delta }
  | .dl => { u with balance_dl := u.balance_dl + delta }
  | .bgl => { u with balance_bgl := u.balance_bgl + delta }
  | .idr => { u with balance_idr := u.balance_idr + delta }

/-- Row of the `balance_transactions` table, columns as in the INSERT of
`update_balance` (`balance_service.py` lines 74-80). -/
structure BTxnRow where
  id : String
  user_id : String
  user_type : String
  currency_type : CurrencyType
  transaction_type : TransactionType
  amount : Int
  created_by : String
  description : Option String
  status : TransactionStatus
  timestamp : Nat
  deriving DecidableEq

/-- Row of the `conversion_rates` table, columns as in the INSERT of
`update_conversion_rate` (`conversion_service.py` lines 77-96). -/
structure RateRow where
  currency : CurrencyType
  rate_rupiah : Int
  min_amount : Int
  max_amount : Int
  is_active : Bool
  updated_at : Nat
  updated_by : String
  deriving DecidableEq

/-- Row of the `conversions` table, columns as in the INSERT of
`convert_currency` (`conversion_service.py` lines 207-213). -/
structure ConvRow where
  id : String
  user_id : String
  from_currency : CurrencyType
  to_currency : CurrencyType
  amount : Int
  converted_amount : Int
  rate_used : Int
  timestamp : Nat
  status : String
  metadata : String
  deriving DecidableEq

/-- The durable store shared by the services: the four record sets the
ledger core touches. -/
structure DBState where
  users : List UserRow
  balance_transactions : List BTxnRow
  conversion_rates : List RateRow
  conversions : List ConvRow
  deriving DecidableEq

/-- pydantic `Balance` model (`api/models/balance.py` lines 29-39): four
integer fields, each `Field(0, ge=0)` plus a validator raising
`Balance cannot be negative` on a negative value. -/
structure Balance where
  wl_balance : Int
  dl_balance : Int
  bgl_balance : Int
  rupiah_balance : Int
  deriving DecidableEq

/-- Constructing a `Balance`: pydantic raises ValidationError when any
field is negative. -/
def Balance.construct (wl dl bgl idr : Int) : Except PyExc Balance :=
  if wl < 0 ∨ dl < 0 ∨ bgl < 0 ∨ idr < 0 then
    .error (.validationError ("Balance cannot be negative"))
  else
    .ok ⟨wl, dl, bgl, idr⟩

/-- pydantic `BalanceResponse` model (`api/models/balance.py` lines 41-77). -/
structure BalanceResponse where
  user_id : String
  user_type : String
  growid : Option String
  balance : Balance
  last_updated : Nat
  updated_by : String
  deriving DecidableEq

/-- Python truthiness of the optional `growid` string (`not v` is true for
both `None` and the empty string). -/
def growidTruthy : Option String → Bool
  | none => false
  | some s => s ≠ ""

/-- Constructing a `BalanceResponse`: the `validate_growid` validator
(lines 54-60) requires a non-empty growid for discord users and no growid
for web users. -/
def BalanceResponse.construct (user_id user_type : String) (growid : Option String)
    (b : Balance) (last_updated : Nat) (updated_by : String) :
    Except PyExc BalanceResponse :=
  if user_type = "discord" ∧ growidTruthy growid = false then
    .error (.validationError ("Growtopia ID wajib diisi untuk user Discord"))
  else if user_type = "web" ∧ growidTruthy growid = true then
    .error (.validationError ("User Web tidak boleh memiliki Growtopia ID"))
  else
    .ok ⟨user_id, user_type, growid, b, last_updated, updated_by⟩

/-- Attribute names and method names defined on `DatabaseService`
(`api/service/database_service.py`): class attributes `_instance`, `_conn`,
`_redis` and the methods of the class body.  There is no `transaction`
member anywhere in the class. -/
def DatabaseService.memberNames : List String :=
  ["_instance", "_conn", "_redis", "__new__", "__init__", "_init_sqlite",
   "_init_redis", "get_connection", "get_redis", "execute_query",
   "cache_get", "cache_set", "cache_delete", "cache_clear", "acquire_lock"]

/-- BalanceService.get_balance (`balance_service.py` lines 24-62): SELECT the
user row by `(id, user_type)`; `None` when absent; otherwise build the
pydantic `BalanceResponse` (whose validators can raise). -/
def get_balance (user_id user_type : String) (st : DBState) :
    Except PyExc (Option BalanceResponse) :=
  match st.users.find? (fun u => u.id = user_id ∧ u.user_type = user_type) with
  | none => .ok none
  | some u =>
    match Balance.construct u.balance_wl u.balance_dl u.balance_bgl u.balance_idr with
    | .error e => .error e
    | .ok b =>
      match BalanceResponse.construct u.id u.user_type u.growid b u.updated_at u.updated_by with
      | .error e => .error e
      | .ok r => .ok (some r)

/-- The signed-unit multiplier computed in `update_balance` lines 83-86:
`1` when the transaction type is ADD or DONATION, `-1` for every other
member of the enum (subtract, convert, purchase, refund, adjustment). -/
def multiplier (t : TransactionType) : Int :=
  if t = .add ∨ t = .donation then 1 else -1

/-- pydantic `BalanceUpdateRequest` (`api/models/balance.py` lines 79-93);
its `amount` field carries `Field(..., gt=0)` which we do not re-model here
because no settled claim depends on request construction. -/
structure BalanceUpdateRequest where
  currency_type : CurrencyType
  amount : Int
  transaction_type : TransactionType
  reason : Option String
  deriving DecidableEq

/-- One status UPDATE observed on `balance_transactions`: which row, the
status it held, and the status written over it. -/
structure StatusWrite where
  txn_id : String
  oldStatus : TransactionStatus
  newStatus : TransactionStatus
  deriving DecidableEq

/-- Effect of `UPDATE balance_transactions SET status = ? WHERE id = ?`
(`balance_service.py` lines 131-135 and 143-147): overwrite the status of
every row with the given id, unconditionally; the second component records
the (old, new) status pairs written. -/
def set_btxn_status (st : DBState) (tid : String) (s : TransactionStatus) :
    DBState × List StatusWrite :=
  ({ st with balance_transactions :=
      st.balance_transactions.map fun r => if r.id = tid then { r with status := s } else r },
   (st.balance_transactions.filter fun r => decide (r.id = tid)).map
      fun r => ⟨tid, r.status, s⟩)

/-- The try block of `update_balance` (lines 98-138): INSERT the pending
`balance_transactions` row, UPDATE the user's balance column by
`multiplier * amount` (affecting zero rows when the user does not exist),
UPDATE the transaction row to success, then return `get_balance` — whose
pydantic construction is the only step of this block that can raise. -/
def update_balance_try (user_id user_type : String) (req : BalanceUpdateRequest)
    (txn_id : String) (now : Nat) (st : DBState) :
    Except PyExc (Option BalanceResponse) × DBState × List StatusWrite :=
  let row : BTxnRow :=
    ⟨txn_id, user_id, user_type, req.currency_type, req.transaction_type,
     req.amount, "fdygg", req.reason, .pending, now⟩
  let st1 := { st with balance_transactions := st.balance_transactions ++ [row] }
  let st2 := { st1 with users := st1.users.map fun u =>
      if u.id = user_id ∧ u.user_type = user_type then
        { u.addBalance req.currency_type (multiplier req.transaction_type * req.amount) with
          updated_at := now, updated_by := "fdygg" }
      else u }
  let p := set_btxn_status st2 txn_id .success
  match get_balance user_id user_type p.1 with
  | .ok r => (.ok r, p.1, p.2)
  | .error e => (.error e, p.1, p.2)

/-- Result of one `update_balance` call: the Python-level outcome, the store
afterwards, the status writes performed on `balance_transactions`, and the
distributed-lock acquisitions performed (none appear anywhere in the
function body). -/
structure UpdateBalanceOutcome where
  result : Except PyExc (Option BalanceResponse)
  db : DBState
  statusWrites : List StatusWrite
  locks : List String
  deriving DecidableEq

/-- The body of `update_balance` under its `async with self.db.transaction():`
line as it would execute if `DatabaseService` had a `transaction` member
(lines 72-148): run the try block; on an exception, overwrite the
transaction row's status with failed and return `None`.  Every
`execute_query(..., fetch=False)` commits immediately, so the writes made
before an exception persist. -/
def update_balance_with_transaction (user_id user_type : String)
    (req : BalanceUpdateRequest) (txn_id : String) (now : Nat) (st : DBState) :
    UpdateBalanceOutcome :=
  match update_balance_try user_id user_type req txn_id now st with
  | (.ok r, st1, ws) => ⟨.ok r, st1, ws, []⟩
  | (.error _, st1, ws) =>
    let p := set_btxn_status st1 txn_id .failed
    ⟨.ok none, p.1, ws ++ p.2, []⟩

/-- BalanceService.update_balance (`balance_service.py` lines 64-148).  Its
first statement, `async with self.db.transaction():`, looks up the
attribute `transaction` on the `DatabaseService` singleton; no such member
exists, so the lookup raises `AttributeError` before any query runs and the
rest of the function is unreachable. -/
def update_balance (user_id user_type : String) (req : BalanceUpdateRequest)
    (txn_id : String) (now : Nat) (st : DBState) : UpdateBalanceOutcome :=
  if "transaction" ∈ DatabaseService.memberNames then
    update_balance_with_transaction user_id user_type req txn_id now st
  else
    ⟨.error (.attributeError ("transaction")), st, [], []⟩

/-- pydantic `ConversionRate` model (`api/models/conversion.py` lines 7-25). -/
structure ConversionRate where
  currency : CurrencyType
  rate_rupiah : Int
  min_amount : Int
  max_amount : Int
  is_active : Bool
  updated_at : Nat
  updated_by : String
  deriving DecidableEq

/-- Constructing a `ConversionRate`: `rate_rupiah` is `Field(..., gt=0)`,
`min_amount` is `Field(1, ge=1)`, `max_amount` is `Field(..., gt=0)`, and
the `validate_currency` validator rejects RUPIAH. -/
def ConversionRate.construct (c : CurrencyType) (rr mn mx : Int) (act : Bool)
    (ua : Nat) (ub : String) : Except PyExc ConversionRate :=
  if rr ≤ 0 then .error (.validationError ("rate_rupiah must be greater than 0"))
  else if mn < 1 then .error (.validationError ("min_amount must be at least 1"))
  else if mx ≤ 0 then .error (.validationError ("max_amount must be greater than 0"))
  else if c = .idr then .error (.validationError ("Cannot set conversion rate for Rupiah"))
  else .ok ⟨c, rr, mn, mx, act, ua, ub⟩

/-- The row returned by `SELECT * FROM conversion_rates WHERE currency = ?
AND is_active = 1 ORDER BY updated_at DESC LIMIT 1`: among active rows of
the currency, the one with the greatest `updated_at` (SQLite leaves the
order of exact ties unspecified; here a later-inserted row wins a tie, and
no settled claim depends on tie order). -/
def latestActiveRate (c : CurrencyType) (rows : List RateRow) : Option RateRow :=
  (rows.filter fun r => decide (r.currency = c) && r.is_active).foldl
    (fun acc r =>
      match acc with
      | none => some r
      | some a => if r.updated_at ≥ a.updated_at then some r else some a)
    none

/-- ConversionService.get_conversion_rate (`conversion_service.py` lines
25-53): ValueError for RUPIAH, `None` when no active row exists, otherwise
the pydantic `ConversionRate` built from the newest active row. -/
def get_conversion_rate (c : CurrencyType) (st : DBState) :
    Except PyExc (Option ConversionRate) :=
  if c = .idr then .error (.valueError ("Cannot get conversion rate for Rupiah"))
  else
    match latestActiveRate c st.conversion_rates with
    | none => .ok none
    | some row =>
      match ConversionRate.construct row.currency row.rate_rupiah row.min_amount
          row.max_amount row.is_active row.updated_at row.updated_by with
      | .error e => .error e
      | .ok r => .ok (some r)

/-- ConversionService.update_conversion_rate (`conversion_service.py` lines
55-102): validation failures raise ValueError, which the surrounding
try/except turns into `None`; otherwise INSERT a new row with
`is_active = True` (no existing row is touched) and re-read the newest
active rate (an exception from that re-read is also caught as `None`,
leaving the inserted row in place). -/
def update_conversion_rate (c : CurrencyType) (rate_rupiah min_amount max_amount : Int)
    (updated_by : String) (now : Nat) (st : DBState) :
    Option ConversionRate × DBState :=
  if c = .idr then (none, st)
  else if rate_rupiah ≤ 0 then (none, st)
  else if min_amount < 1 then (none, st)
  else if max_amount ≤ min_amount then (none, st)
  else
    let st1 := { st with conversion_rates := st.conversion_rates ++
        [⟨c, rate_rupiah, min_amount, max_amount, true, now, updated_by⟩] }
    (match get_conversion_rate c st1 with
     | .ok r => r
     | .error _ => none,
     st1)

/-- pydantic `ConversionRequest` model (`api/models/conversion.py` lines
40-62). -/
structure ConversionRequest where
  user_id : String
  user_type : String
  from_currency : CurrencyType
  to_currency : CurrencyType
  amount : Int
  deriving DecidableEq

/-- Constructing a `ConversionRequest`: `amount` is `Field(..., gt=0)`, the
`validate_user_type` validator admits only "discord", and the
`validate_to_currency` validator rejects identical currencies, a RUPIAH
source, and any non-RUPIAH target.  The returned message is the first
failing check; pydantic raises ValidationError in each of these cases. -/
def ConversionRequest.validate (user_id user_type : String)
    (fc tc : CurrencyType) (amount : Int) : Except String ConversionRequest :=
  if amount ≤ 0 then .error ("amount must be greater than 0")
  else if user_type ≠ "discord" then
    .error ("Only Discord users can perform currency conversion")
  else if fc = tc then .error ("Cannot convert to same currency")
  else if fc = .idr then .error ("Cannot convert from Rupiah")
  else if tc ≠ .idr then .error ("Can only convert to Rupiah")
  else .ok ⟨user_id, user_type, fc, tc, amount⟩

/-- pydantic `ConversionResponse` model (`api/models/conversion.py` lines
75-108); only its type is needed, since no execution of `convert_currency`
reaches the statement that builds one. -/
structure ConversionResponse where
  conversion_id : String
  user_id : String
  from_currency : CurrencyType
  to_currency : CurrencyType
  amount : Int
  converted_amount : Int
  rate_used : Int
  timestamp : Nat
  status : String
  deriving DecidableEq

/-- The `(success, message, response)` triple returned by
`convert_currency`. -/
structure ConvertResult where
  success : Bool
  message : String
  response : Option ConversionResponse
  deriving DecidableEq

/-- Python attribute access on a `BalanceResponse` object, as performed by
`getattr(balance, f"{request.from_currency.value}_balance")` in
`convert_currency` line 196.  The model's attributes are exactly its six
declared fields; any other name raises AttributeError.  The second
component is the attribute's value when that value is a Python int (none of
the six fields holds a plain int, so a successful lookup never yields
one). -/
def BalanceResponse.pyGetattrInt (_b : BalanceResponse) (name : String) :
    Except PyExc (Option Int) :=
  if name = "user_id" then .ok none
  else if name = "user_type" then .ok none
  else if name = "growid" then .ok none
  else if name = "balance" then .ok none
  else if name = "last_updated" then .ok none
  else if name = "updated_by" then .ok none
  else .error (.attributeError (name))

/-- The `conversions` row INSERTed by `convert_currency` (lines 207-230):
note the status column is the string literal "success", written before any
balance update is attempted, and no statement anywhere in the service ever
updates a `conversions` row afterwards. -/
def mkConversionRow (req : ConversionRequest) (conv_id : String) (now : Nat)
    (rate : ConversionRate) (converted_amount : Int) : ConvRow :=
  ⟨conv_id, req.user_id, req.from_currency, req.to_currency, req.amount,
   converted_amount, rate.rate_rupiah, now, "success", "\x7b\x7d"⟩

/-- The try block of `convert_currency` (`conversion_service.py` lines
165-255), returning the Python value of the block (or the exception it
raises) together with the store as of that moment.  Steps, in source
order: direction checks; active-rate lookup; min/max bounds; balance
lookup; `getattr(balance, f"{...}_balance")` — which raises
AttributeError, because `BalanceResponse` nests the four balances inside
its `balance` field and has no `wl_balance`/`dl_balance`/`bgl_balance`
attribute of its own; then (unreachably) the insufficient-balance check,
the `conversions` INSERT, and the call
`self.balance_service.update_balance(user_id=..., user_type=..., updates=...)`,
which raises TypeError at the call site since
`BalanceService.update_balance` accepts `(user_id, user_type,
update_request)` and no keyword named `updates`. -/
def convert_try (req : ConversionRequest) (conv_id : String) (now : Nat)
    (st : DBState) : Except PyExc ConvertResult × DBState :=
  if req.from_currency = .idr then
    (.ok ⟨false, "Cannot convert from Rupiah", none⟩, st)
  else if req.to_currency ≠ .idr then
    (.ok ⟨false, "Can only convert to Rupiah", none⟩, st)
  else
    match get_conversion_rate req.from_currency st with
    | .error e => (.error e, st)
    | .ok none =>
      (.ok ⟨false, "No conversion rate found for " ++ req.from_currency.value, none⟩, st)
    | .ok (some rate) =>
      if rate.is_active = false then
        (.ok ⟨false, "Conversion for " ++ req.from_currency.value ++ " is currently inactive",
          none⟩, st)
      else if req.amount < rate.min_amount then
        (.ok ⟨false, "Amount below minimum", none⟩, st)
      else if req.amount > rate.max_amount then
        (.ok ⟨false, "Amount above maximum", none⟩, st)
      else
        match get_balance req.user_id req.user_type st with
        | .error e => (.error e, st)
        | .ok none => (.ok ⟨false, "User balance not found", none⟩, st)
        | .ok (some balance) =>
          match balance.pyGetattrInt (req.from_currency.value ++ "_balance") with
          | .error e => (.error e, st)
          | .ok none =>
            (.error (.typeError ("unorderable types in balance comparison")), st)
          | .ok (some currency_balance) =>
            if currency_balance < req.amount then
              (.ok ⟨false, "Insufficient " ++ req.from_currency.value ++ " balance", none⟩, st)
            else
              let converted_amount := req.amount * rate.rate_rupiah
              let st1 := { st with conversions := st.conversions ++
                  [mkConversionRow req conv_id now rate converted_amount] }
              (.error (.typeError
                ("update_balance() got an unexpected keyword argument: updates")), st1)

/-- Result of one `convert_currency` call: the returned triple, the store
afterwards, and the distributed-lock acquisitions performed (none appear
anywhere in the function body). -/
structure ConvertOutcome where
  result : ConvertResult
  db : DBState
  locks : List String
  deriving DecidableEq

/-- ConversionService.convert_currency (`conversion_service.py` lines
160-259): run the try block; the catch-all `except Exception` turns any
exception into `(False, "Conversion failed", None)`, keeping whatever
writes had already committed. -/
def convert_currency (req : ConversionRequest) (conv_id : String) (now : Nat)
    (st : DBState) : ConvertOutcome :=
  match convert_try req conv_id now st with
  | (.ok r, st1) => ⟨r, st1, []⟩
  | (.error _, st1) => ⟨⟨false, "Conversion failed", none⟩, st1, []⟩

/-- A conversion call as the API layer performs it: construct the pydantic
`ConversionRequest` (which can reject with ValidationError) and, only when
construction succeeds, run `convert_currency`. -/
def convert_call (user_id user_type : String) (fc tc : CurrencyType) (amount : Int)
    (conv_id : String) (now : Nat) (st : DBState) :
    Except String ConvertResult × DBState × List String :=
  match ConversionRequest.validate user_id user_type fc tc amount with
  | .error m => (.error m, st, [])
  | .ok req =>
    let o := convert_currency req conv_id now st
    (.ok o.result, o.db, o.locks)

/-- A redis lock acquisition call as `DatabaseService.acquire_lock`
(`database_service.py` lines 151-167) issues it: lock name `"lock:" ++ key`,
`timeout` (the redis lock's expiry once held, not an acquire deadline),
`blocking=True`, and no `blocking_timeout`. -/
structure RedisLockCall where
  name : String
  ttl : Int
  blocking : Bool
  blocking_timeout : Option Int
  deriving DecidableEq

/-- DatabaseService.acquire_lock builds exactly this call:
`self._redis.lock(f"lock:{key}", timeout=timeout)` then
`lock.acquire(blocking=True)`. -/
def acquire_lock (key : String) (timeout : Int) : RedisLockCall :=
  ⟨"lock:" ++ key, timeout, true, none⟩

/-- Behaviour of `redis.lock.Lock.acquire` (external redis-py library,
modelled from its documented semantics): when the lock is free it is taken;
when it is contended, `blocking=False` or an elapsed `blocking_timeout`
makes `acquire` return False (surfacing as `None` from `acquire_lock`),
while `blocking=True` with `blocking_timeout=None` retries forever and
never returns. -/
inductive LockAcquireOutcome
  | acquired
  | returnsNone
  | blocksForever
  deriving DecidableEq

/-- Outcome of issuing the call against a lock that is or is not currently
held by another owner. -/
def RedisLockCall.outcome (c : RedisLockCall) (contended : Bool) : LockAcquireOutcome :=
  if contended = false then .acquired
  else if c.blocking = false then .returnsNone
  else
    match c.blocking_timeout with
    | some _ => .returnsNone
    | none => .blocksForever

/-- Number of active `conversion_rates` rows of one currency. -/
def activeRateCount (st : DBState) (c : CurrencyType) : Nat :=
  (st.conversion_rates.filter fun r => decide (r.currency = c) && r.is_active).length

theorem update_balance_raises (u t : String) (req : BalanceUpdateRequest)
    (tid : String) (now : Nat) (st : DBState) :
    update_balance u t req tid now st =
      ⟨.error (.attributeError ("transaction")), st, [], []⟩ := by
  unfold update_balance
  rw [if_neg (by decide)]

theorem pyGetattrInt_no_balance_attr (b : BalanceResponse) (c : CurrencyType)
    (h : ¬ c = .idr) :
    b.pyGetattrInt (c.value ++ "_balance") =
      .error (.attributeError (c.value ++ "_balance")) := by
  cases c with
  | wl => rfl
  | dl => rfl
  | bgl => rfl
  | idr => exact absurd rfl h

theorem convert_try_spec (req : ConversionRequest) (cid : String) (now : Nat)
    (st : DBState) :
    (convert_try req cid now st).2 = st ∧
      ∀ res, (convert_try req cid now st).1 = .ok res → res.success = false := by
  unfold convert_try
  by_cases h1 : req.from_currency = .idr
  · simp [h1]
  · simp only [if_neg h1]
    by_cases h2 : req.to_currency = .idr
    · have h2n : ¬ req.to_currency ≠ .idr := by simp [h2]
      simp only [if_neg h2n]
      rcases hR : get_conversion_rate req.from_currency st with e | v
      · simp [hR]
      · cases v with
        | none => simp [hR]
        | some rate =>
          simp only [hR]
          by_cases h3 : rate.is_active = false
          · simp [h3]
          · simp only [if_neg h3]
            by_cases h4 : req.amount < rate.min_amount
            · simp [h4]
            · simp only [if_neg h4]
              by_cases h5 : req.amount > rate.max_amount
              · simp [h5]
              · simp only [if_neg h5]
                rcases hB : get_balance req.user_id req.user_type st with e | w
                · simp [hB]
                · cases w with
                  | none => simp [hB]
                  | some balance =>
                    simp only [hB]
                    rw [pyGetattrInt_no_balance_attr balance req.from_currency h1]
                    simp
    · have h2p : req.to_currency ≠ .idr := h2
      simp [if_pos h2p]

theorem convert_currency_spec (req : ConversionRequest) (cid : String) (now : Nat)
    (st : DBState) :
    (convert_currency req cid now st).db = st ∧
      (convert_currency req cid now st).result.success = false ∧
      (convert_currency req cid now st).locks = [] := by
  obtain ⟨hdb, hok⟩ := convert_try_spec req cid now st
  unfold convert_currency
  rcases hT : convert_try req cid now st with ⟨res, st1⟩
  rw [hT] at hdb
  cases res with
  | ok r =>
    have hs := hok r (by rw [hT])
    exact ⟨hdb, hs, rfl⟩
  | error e =>
    exact ⟨hdb, rfl, rfl⟩

theorem set_btxn_status_users (st : DBState) (tid : String) (s : TransactionStatus) :
    (set_btxn_status st tid s).1.users = st.users := rfl

theorem update_balance_try_users (user_id user_type : String)
    (req : BalanceUpdateRequest) (tid : String) (now : Nat) (st : DBState) :
    (update_balance_try user_id user_type req tid now st).2.1.users =
      st.users.map fun u =>
        if u.id = user_id ∧ u.user_type = user_type then
          { u.addBalance req.currency_type (multiplier req.transaction_type * req.amount) with
            updated_at := now, updated_by := "fdygg" }
        else u := by
  unfold update_balance_try
  dsimp only
  split <;> rfl

theorem update_balance_with_transaction_users (u t : String)
    (req : BalanceUpdateRequest) (tid : String) (now : Nat) (st : DBState) :
    (update_balance_with_transaction u t req tid now st).db.users =
      (update_balance_try u t req tid now st).2.1.users := by
  unfold update_balance_with_transaction
  rcases hT : update_balance_try u t req tid now st with ⟨res, st1, ws⟩
  cases res <;> simp [hT, set_btxn_status]

theorem getBalance_addBalance_upd (u : UserRow) (c : CurrencyType) (d : Int)
    (n : Nat) (s : String) :
    ({ u.addBalance c d with updated_at := n, updated_by := s }).getBalance c =
      u.getBalance c + d := by
  cases c <;> rfl

theorem multiplier_mul (t : TransactionType) (a : Int) :
    multiplier t * a = if t = .add ∨ t = .donation then a else -a := by
  by_cases h : t = .add ∨ t = .donation <;> simp [multiplier, h]

/-- C1: at the spec scenario (wl_balance 100, subtract 150) `update_balance`
does not return an InsufficientFunds error: it raises AttributeError at its
first statement (`DatabaseService` has no `transaction` member) and changes
nothing; and even the body it guards, run on its own, performs no
insufficient-funds check — it drives the stored balance to -50 and returns
`None`, the entry ending up `failed` only because re-reading the negative
balance trips a pydantic validator. -/
theorem C1_insufficient_funds_not_enforced :
    update_balance ("usr_1") ("discord") ⟨.wl, 150, .subtract, some ("test debit")⟩
        ("txn_1") 10
        ⟨[⟨"usr_1", "discord", some ("GROW1"), 100, 0, 0, 0, 5, "fdygg"⟩], [], [], []⟩ =
      ⟨.error (.attributeError ("transaction")),
        ⟨[⟨"usr_1", "discord", some ("GROW1"), 100, 0, 0, 0, 5, "fdygg"⟩], [], [], []⟩,
        [], []⟩ ∧
    ((update_balance_with_transaction ("usr_1") ("discord")
        ⟨.wl, 150, .subtract, some ("test debit")⟩ ("txn_1") 10
        ⟨[⟨"usr_1", "discord", some ("GROW1"), 100, 0, 0, 0, 5, "fdygg"⟩], [], [], []⟩).db.users.map
      fun x => x.balance_wl) = [-50] ∧
    ((update_balance_with_transaction ("usr_1") ("discord")
        ⟨.wl, 150, .subtract, some ("test debit")⟩ ("txn_1") 10
        ⟨[⟨"usr_1", "discord", some ("GROW1"), 100, 0, 0, 0, 5, "fdygg"⟩], [], [], []⟩).db.balance_transactions.map
      fun x => x.status) = [.failed] ∧
    (update_balance_with_transaction ("usr_1") ("discord")
        ⟨.wl, 150, .subtract, some ("test debit")⟩ ("txn_1") 10
        ⟨[⟨"usr_1", "discord", some ("GROW1"), 100, 0, 0, 0, 5, "fdygg"⟩], [], [], []⟩).result =
      .ok none := by
  decide

/-- C2: `convert_currency` never reaches its two-leg balance update — every
run leaves the store exactly as it was (no debit, no credit, no ledger
entry, no ConversionRecord of any status) and reports failure; moreover the
`conversions` INSERT it would perform writes the literal status "success"
before either leg, and no code path ever marks a conversion record failed. -/
theorem C2_conversion_never_commits (req : ConversionRequest) (cid : String)
    (now : Nat) (st : DBState) (rate : ConversionRate) (camt : Int) :
    (convert_currency req cid now st).db = st ∧
      (convert_currency req cid now st).result.success = false ∧
      (mkConversionRow req cid now rate camt).status = "success" := by
  obtain ⟨h1, h2, _⟩ := convert_currency_spec req cid now st
  exact ⟨h1, h2, rfl⟩

/-- C3 counterexample: `acquire_lock` issues a redis acquire with
`blocking=True` and no blocking timeout, so on a contended lock it blocks
forever; it never returns the timeout failure the claim requires. -/
theorem C3_counterexample_acquire_blocks_forever :
    (acquire_lock ("usr_3:discord") 10).outcome true = .blocksForever ∧
      (acquire_lock ("usr_3:discord") 10).outcome true ≠ .returnsNone := by
  decide

/-- C3 amended: no balance-mutating operation acquires any lock —
`update_balance` and `convert_currency` perform zero lock acquisitions —
and the unused `acquire_lock` helper passes `blocking=True` with no
blocking timeout (its `timeout` argument is the lock TTL), so a contended
acquire blocks indefinitely instead of failing. -/
theorem C3_no_locking (u t : String) (req : BalanceUpdateRequest) (tid : String)
    (now : Nat) (st : DBState) (creq : ConversionRequest) (cid : String)
    (n2 : Nat) (st2 : DBState) (k : String) (ttl : Int) :
    (update_balance u t req tid now st).locks = [] ∧
      (convert_currency creq cid n2 st2).locks = [] ∧
      (acquire_lock k ttl).blocking = true ∧
      (acquire_lock k ttl).blocking_timeout = none ∧
      (acquire_lock k ttl).outcome true = .blocksForever := by
  refine ⟨?_, (convert_currency_spec creq cid n2 st2).2.2, rfl, rfl, rfl⟩
  rw [update_balance_raises]

/-- C4 counterexample: a refund of 10 on a wl balance of 100 leaves 90, not
110 — the multiplier expression of `update_balance` puts only ADD and
DONATION in the positive branch, so REFUND applies a negative delta. -/
theorem C4_counterexample_refund_subtracts :
    ((update_balance_with_transaction ("usr_4") ("discord")
        ⟨.wl, 10, .refund, some ("refund order")⟩ ("txn_4") 7
        ⟨[⟨"usr_4", "discord", some ("GROW4"), 100, 0, 0, 0, 2, "fdygg"⟩], [], [], []⟩).db.users.map
      fun x => x.balance_wl) = [90] ∧
    multiplier .refund = -1 ∧ (90 : Int) ≠ 100 + 10 := by
  decide

/-- C4 amended: the signed delta applied to the addressed balance column is
+amount when the type is add or donation, and -amount for every other
transaction type — subtract, purchase, adjustment, convert, and also
refund. -/
theorem C4_signed_delta (u : UserRow) (req : BalanceUpdateRequest)
    (tid : String) (now : Nat) :
    ((update_balance_with_transaction u.id u.user_type req tid now
        ⟨[u], [], [], []⟩).db.users.map
      fun x => x.getBalance req.currency_type) =
      [u.getBalance req.currency_type +
        (if req.transaction_type = .add ∨ req.transaction_type = .donation then
          req.amount
        else -req.amount)] := by
  rw [update_balance_with_transaction_users, update_balance_try_users]
  simp [getBalance_addBalance_upd, multiplier_mul]

/-- C5: the spec scenario (active rate WL→5000 with bounds [1, 10000],
wl_balance 1000, convert 200 WL) does not succeed: `convert_currency`
raises AttributeError reading `wl_balance` off the `BalanceResponse`
(whose balances sit nested under `.balance`), swallows it, and returns
`(False, "Conversion failed", None)` with the store untouched — wl stays
1000 and no rupiah is credited. -/
theorem C5_conversion_scenario_fails :
    convert_currency ⟨"usr_5", "discord", .wl, .idr, 200⟩ ("conv_5") 20
        ⟨[⟨"usr_5", "discord", some ("GROW5"), 1000, 0, 0, 0, 5, "fdygg"⟩], [],
          [⟨.wl, 5000, 1, 10000, true, 5, "fdygg"⟩], []⟩ =
      ⟨⟨false, "Conversion failed", none⟩,
        ⟨[⟨"usr_5", "discord", some ("GROW5"), 1000, 0, 0, 0, 5, "fdygg"⟩], [],
          [⟨.wl, 5000, 1, 10000, true, 5, "fdygg"⟩], []⟩, []⟩ := by
  decide

/-- C6 counterexample: two successive `update_conversion_rate` calls for WL
leave two active WL rows — the update inserts a new active row without
deactivating the previous one, refuting "at most one active row per
currency". -/
theorem C6_counterexample_two_active_rates :
    activeRateCount
        (update_conversion_rate .wl 6000 1 999999 ("fdygg") 20
          (update_conversion_rate .wl 5000 1 999999 ("fdygg") 10
            ⟨[], [], [], []⟩).2).2 .wl = 2 ∧
      ¬ activeRateCount
        (update_conversion_rate .wl 6000 1 999999 ("fdygg") 20
          (update_conversion_rate .wl 5000 1 999999 ("fdygg") 10
            ⟨[], [], [], []⟩).2).2 .wl ≤ 1 := by
  decide

/-- C6 amended: `update_conversion_rate` only ever appends — every
pre-existing `conversion_rates` row survives the call unchanged, active
flag included, so several active rows per currency can accumulate; rows are
never updated in place or deleted, and `get_conversion_rate` reads the most
recently updated active row. -/
theorem C6_rates_append_only (st : DBState) (c : CurrencyType) (rr mn mx : Int)
    (ub : String) (now : Nat) (r : RateRow) (hr : r ∈ st.conversion_rates) :
    r ∈ (update_conversion_rate c rr mn mx ub now st).2.conversion_rates := by
  unfold update_conversion_rate
  split_ifs <;> first | exact hr | exact List.mem_append_left _ hr

/-- C6 witness: a previously inserted active WL row is still present,
unchanged, after a later rate update for WL. -/
theorem C6_rates_append_only_witness :
    (⟨.wl, 5000, 1, 999999, true, 10, "fdygg"⟩ : RateRow) ∈
      (update_conversion_rate .wl 6000 1 999999 ("fdygg") 20
        ⟨[], [], [⟨.wl, 5000, 1, 999999, true, 10, "fdygg"⟩], []⟩).2.conversion_rates :=
  C6_rates_append_only ⟨[], [], [⟨.wl, 5000, 1, 999999, true, 10, "fdygg"⟩], []⟩
    .wl 6000 1 999999 ("fdygg") 20 ⟨.wl, 5000, 1, 999999, true, 10, "fdygg"⟩
    (by decide)

/-- C7 counterexample: in the body of `update_balance` the entry for a
rejected-looking debit is driven pending → success → failed: the
success → failed overwrite is outside the claimed state machine, yet it is
performed silently and the call completes normally instead of rejecting the
transition. -/
theorem C7_counterexample_success_to_failed :
    (update_balance_with_transaction ("usr_7") ("discord")
        ⟨.wl, 150, .subtract, some ("debit")⟩ ("txn_7") 12
        ⟨[⟨"usr_7", "discord", some ("GROW7"), 100, 0, 0, 0, 3, "fdygg"⟩], [], [], []⟩).statusWrites =
      [⟨"txn_7", .pending, .success⟩, ⟨"txn_7", .success, .failed⟩] ∧
    ((TransactionStatus.success, TransactionStatus.failed) ∉
      [(TransactionStatus.pending, TransactionStatus.success),
       (TransactionStatus.pending, TransactionStatus.failed),
       (TransactionStatus.pending, TransactionStatus.cancelled),
       (TransactionStatus.success, TransactionStatus.reversed)]) ∧
    (update_balance_with_transaction ("usr_7") ("discord")
        ⟨.wl, 150, .subtract, some ("debit")⟩ ("txn_7") 12
        ⟨[⟨"usr_7", "discord", some ("GROW7"), 100, 0, 0, 0, 3, "fdygg"⟩], [], [], []⟩).result =
      .ok none := by
  decide

/-- C7 amended: no state machine is enforced — the status UPDATE overwrites
the status of every `balance_transactions` row with the given id with the
new value whatever status the row currently holds, so any transition,
including out of a terminal status, is performed rather than rejected. -/
theorem C7_status_overwrite_unconditional (st : DBState) (tid : String)
    (s : TransactionStatus) (r : BTxnRow) (hr : r ∈ st.balance_transactions)
    (hid : r.id = tid) :
    { r with status := s } ∈ (set_btxn_status st tid s).1.balance_transactions := by
  unfold set_btxn_status
  refine List.mem_map.mpr ⟨r, hr, ?_⟩
  simp [hid]

/-- C7 witness: a row already in terminal status cancelled is overwritten
to success. -/
theorem C7_status_overwrite_witness :
    ({ (⟨"txn_8", "usr_8", "discord", .wl, .add, 5, "fdygg", none, .cancelled, 1⟩ : BTxnRow)
        with status := TransactionStatus.success }) ∈
      (set_btxn_status
        ⟨[], [⟨"txn_8", "usr_8", "discord", .wl, .add, 5, "fdygg", none, .cancelled, 1⟩], [], []⟩
        ("txn_8") .success).1.balance_transactions :=
  C7_status_overwrite_unconditional
    ⟨[], [⟨"txn_8", "usr_8", "discord", .wl, .add, 5, "fdygg", none, .cancelled, 1⟩], [], []⟩
    ("txn_8") .success
    ⟨"txn_8", "usr_8", "discord", .wl, .add, 5, "fdygg", none, .cancelled, 1⟩
    (by decide) (by decide)

/-- C8 counterexample: a concrete `update_balance` call surfaces a raw
AttributeError — not a success payload and not one of the claimed typed
errors. -/
theorem C8_counterexample_raw_exception :
    (update_balance ("usr_8b") ("discord") ⟨.dl, 7, .add, none⟩ ("txn_c8") 3
        ⟨[], [], [], []⟩).result = .error (.attributeError ("transaction")) := by
  decide

/-- C8 amended: the claimed typed-error taxonomy does not exist —
`update_balance` propagates a raw AttributeError on every input, while
`convert_currency` never surfaces an exception or a typed error at all: its
catch-all folds every internal failure into the untyped
`(False, message, None)` triple. -/
theorem C8_no_typed_errors (u t : String) (req : BalanceUpdateRequest)
    (tid : String) (now : Nat) (st : DBState) (creq : ConversionRequest)
    (cid : String) (n2 : Nat) (st2 : DBState) :
    (update_balance u t req tid now st).result =
        .error (.attributeError ("transaction")) ∧
      (convert_currency creq cid n2 st2).result.success = false := by
  refine ⟨?_, (convert_currency_spec creq cid n2 st2).2.1⟩
  rw [update_balance_raises]

/-- C9: a conversion request whose platform is not discord, or whose source
currency is the real currency, or whose amount is non-positive, is rejected
by pydantic validation of `ConversionRequest` before `convert_currency`
runs: the call returns the ValidationError message, the store is unchanged,
and no lock is acquired. -/
theorem C9_prelock_validation (user_id user_type : String) (fc tc : CurrencyType)
    (amount : Int) (cid : String) (now : Nat) (st : DBState)
    (h : user_type ≠ "discord" ∨ fc = .idr ∨ amount ≤ 0) :
    ∃ m, ConversionRequest.validate user_id user_type fc tc amount = .error m ∧
      convert_call user_id user_type fc tc amount cid now st = (.error m, st, []) := by
  have hval : ∃ m, ConversionRequest.validate user_id user_type fc tc amount = .error m := by
    unfold ConversionRequest.validate
    by_cases ha : amount ≤ 0
    · exact ⟨_, by rw [if_pos ha]⟩
    · rw [if_neg ha]
      rcases h with hu | hfc | ha2
      · exact ⟨_, by rw [if_pos hu]⟩
      · by_cases hu : user_type ≠ "discord"
        · exact ⟨_, by rw [if_pos hu]⟩
        · rw [if_neg hu]
          by_cases he : fc = tc
          · exact ⟨_, by rw [if_pos he]⟩
          · rw [if_neg he]
            exact ⟨_, by rw [if_pos hfc]⟩
      · exact absurd ha2 ha
  obtain ⟨m, hm⟩ := hval
  refine ⟨m, hm, ?_⟩
  unfold convert_call
  rw [hm]

/-- C9 witness: `convert(WL, amount=0)` from a discord account is rejected
with a ValidationError, with the store untouched and no lock taken. -/
theorem C9_prelock_validation_witness :
    ∃ m, ConversionRequest.validate ("usr_9") ("discord") .wl .idr 0 = .error m ∧
      convert_call ("usr_9") ("discord") .wl .idr 0 ("conv_9") 1 ⟨[], [], [], []⟩ =
        (.error m, ⟨[], [], [], []⟩, []) :=
  C9_prelock_validation ("usr_9") ("discord") .wl .idr 0 ("conv_9") 1
    ⟨[], [], [], []⟩ (Or.inr (Or.inr (by decide)))

/-- C10 counterexample: calling `update_balance` for an account absent from
the users table does not insert a success-status transaction row and does
not return None — it raises AttributeError before touching the store, and
the `balance_transactions` table stays empty. -/
theorem C10_counterexample_ghost_account :
    update_balance ("ghost_user") ("discord") ⟨.wl, 50, .add, some ("deposit")⟩
        ("txn_10") 4 ⟨[], [], [], []⟩ =
      ⟨.error (.attributeError ("transaction")), ⟨[], [], [], []⟩, [], []⟩ ∧
    (update_balance ("ghost_user") ("discord") ⟨.wl, 50, .add, some ("deposit")⟩
        ("txn_10") 4 ⟨[], [], [], []⟩).result ≠ .ok none ∧
    (update_balance ("ghost_user") ("discord") ⟨.wl, 50, .add, some ("deposit")⟩
        ("txn_10") 4 ⟨[], [], [], []⟩).db.balance_transactions = [] := by
  decide

/-- C10 amended: every `update_balance` call — whether or not the account
exists — raises AttributeError at `async with self.db.transaction():`
because `DatabaseService` defines no `transaction` member; no
balance_transactions row is inserted, no status is finalized, and no value
(None or otherwise) is returned. -/
theorem C10_always_attribute_error (u t : String) (req : BalanceUpdateRequest)
    (tid : String) (now : Nat) (st : DBState) :
    update_balance u t req tid now st =
      ⟨.error (.attributeError ("transaction")), st, [], []⟩ :=
  update_balance_raises u t req tid now st

end Go
